import Mathlib

/-!
Verification of the `unknown_fs` filesystem adapter stub
(`src/bootstrap/stage0/unknown_fs.cpp`).

The adapter exposes two primitives, `make_directory` and
`current_directory`, on a backend with no native implementation.  Each
one emits a diagnostic line via `warnln` and then returns the error
built from errno 38 (ENOSYS on Linux).

We embed each function as the ordered list of its observable events:
the lines it writes to the diagnostic stream, any filesystem mutation
it performs, and the result value it returns.  The body of each C++
function is a braced block containing an early `return`; we embed the
block separately from the enclosing function so that the dead
success-returning statement after the block (`return {};` on line 9)
appears in the model exactly where it appears in the source.
-/

namespace Jakt

/-- Structured error value, as built by `Error::from_errno`: it carries
the numeric errno code. -/
structure Error where
  errno : Int
deriving DecidableEq, Repr

/-- Mirror of `Error::from_errno(code)`. -/
def Error.from_errno (code : Int) : Error := ⟨code⟩

/-- Mirror of the C++ `ErrorOr<T>` result type: exactly one of a
success payload or an error is populated. -/
def ErrorOr (α : Type) : Type := Except Error α

instance (α : Type) [DecidableEq α] : DecidableEq (ErrorOr α) := fun a b =>
  match a, b with
  | Except.ok x, Except.ok y =>
      if h : x = y then isTrue (by rw [h]) else
        isFalse (fun hc => h (by injection hc))
  | Except.error e, Except.error f =>
      if h : e = f then isTrue (by rw [h]) else
        isFalse (fun hc => h (by injection hc))
  | Except.ok _, Except.error _ => isFalse (fun hc => Except.noConfusion hc)
  | Except.error _, Except.ok _ => isFalse (fun hc => Except.noConfusion hc)

/-- One observable event of a call into the adapter, in the order the
call performs them: a line written to the diagnostic stream by
`warnln`, a mutation of the underlying filesystem, or the production
of the call's result value at a `return` statement. -/
inductive Event (α : Type) where
  | warnLine (line : String)
  | fsMutation (desc : String)
  | ret (r : ErrorOr α)

/-- One-argument formatting as performed by `warnln`'s format
machinery: the first `\x7b\x7d` placeholder in the format string is
replaced by the argument, scanning left to right. -/
def format_one_aux (arg : List Char) : List Char → List Char
  | [] => []
  | '{' :: '}' :: rest => arg ++ rest
  | c :: rest => c :: format_one_aux arg rest

/-- Formatting of a `String` format with one `String` argument. -/
def format_one (fmt arg : String) : String :=
  ⟨format_one_aux arg.data fmt.data⟩

/-- The braced block forming the body of `make_directory`
(lines 5 to 8): it calls `warnln` with the format string and the path,
then returns `Error::from_errno(38)`.  The second component is the
value the block returns early with, or `none` if the block would fall
through to the code after it. -/
def make_directory_block (path : String) :
    List (Event Unit) × Option (ErrorOr Unit) :=
  ([Event.warnLine (format_one "NOT IMPLEMENTED: make_directory {}" path)],
   some (Except.error (Error.from_errno 38)))

/-- Mirror of `make_directory`: run the block; if it returned early,
that is the function's result, otherwise the trailing `return {};` on
line 9 returns success with no payload. -/
def make_directory (path : String) : List (Event Unit) :=
  match make_directory_block path with
  | (evs, some res) => evs ++ [Event.ret res]
  | (evs, none) => evs ++ [Event.ret (Except.ok ())]

/-- The braced block forming the body of `current_directory`
(lines 13 to 16): it calls `warnln` with the fixed message (no
argument), then returns `Error::from_errno(38)`. -/
def current_directory_block :
    List (Event String) × Option (ErrorOr String) :=
  ([Event.warnLine "NOT IMPLEMENTED: current_directory"],
   some (Except.error (Error.from_errno 38)))

/-- Mirror of `current_directory`: run the block; if it returned
early, that is the function's result.  There is no statement after the
block, so a fall-through would produce no return event. -/
def current_directory : List (Event String) :=
  match current_directory_block with
  | (evs, some res) => evs ++ [Event.ret res]
  | (evs, none) => evs

/-- The diagnostic lines a call emits, in order. -/
def diagnostics {α : Type} : List (Event α) → List String
  | [] => []
  | Event.warnLine l :: rest => l :: diagnostics rest
  | _ :: rest => diagnostics rest

/-- The result value a call produces: the payload of its first return
event, or `none` if the call never returns a value. -/
def resultOf {α : Type} : List (Event α) → Option (ErrorOr α)
  | [] => none
  | Event.ret r :: _ => some r
  | _ :: rest => resultOf rest

/-- Whether a call performs any filesystem mutation. -/
def mutatesFs {α : Type} (evs : List (Event α)) : Bool :=
  evs.any fun e =>
    match e with
    | Event.fsMutation _ => true
    | _ => false

/-- Linux value of the standard errno for "function not implemented"
(ENOSYS), the code the spec designates for the not-supported
condition. -/
def ENOSYS : Int := 38

/-- A call into the adapter, identified by primitive and arguments. -/
inductive Call where
  | makeDir (path : String)
  | currentDir

/-- The outcome of one call, with both primitives' result shapes
folded into a single type so sequences of calls can be compared. -/
inductive CallResult where
  | ok_unit
  | ok_path (p : String)
  | err (errno : Int)
  | noReturn
deriving DecidableEq, Repr

/-- The ambient state a call can observe or extend: the diagnostic
stream written so far. -/
structure World where
  stderrLines : List String
deriving DecidableEq, Repr

/-- Execute one call against the ambient world: its diagnostic lines
are appended to the stream and its result value is reported. -/
def execCall : Call → World → World × CallResult
  | Call.makeDir p, w =>
      let evs := make_directory p
      (⟨w.stderrLines ++ diagnostics evs⟩,
       match resultOf evs with
       | some (Except.ok _) => CallResult.ok_unit
       | some (Except.error e) => CallResult.err e.errno
       | none => CallResult.noReturn)
  | Call.currentDir, w =>
      let evs := current_directory
      (⟨w.stderrLines ++ diagnostics evs⟩,
       match resultOf evs with
       | some (Except.ok s) => CallResult.ok_path s
       | some (Except.error e) => CallResult.err e.errno
       | none => CallResult.noReturn)

/-- Execute a sequence of calls left to right, threading the world,
and collect each call's result in order. -/
def runCalls : World → List Call → World × List CallResult
  | w, [] => (w, [])
  | w, c :: cs =>
      let p1 := execCall c w
      let p2 := runCalls p1.1 cs
      (p2.1, p1.2 :: p2.2)

/-- Whether an `ErrorOr` value populates the success shape. -/
def isSuccess {α : Type} : ErrorOr α → Bool
  | Except.ok _ => true
  | Except.error _ => false

/-- Whether an `ErrorOr` value populates the error shape. -/
def isFailure {α : Type} : ErrorOr α → Bool
  | Except.ok _ => false
  | Except.error _ => true

/-- The errno carried by a call's result, when the result is an
error. -/
def errnoOf {α : Type} (evs : List (Event α)) : Option Int :=
  match resultOf evs with
  | some (Except.error e) => some e.errno
  | _ => none

/-- The result a call produces when run against the empty world;
`execCall` produces this same result from every world. -/
def callResult (c : Call) : CallResult := (execCall c ⟨[]⟩).2

theorem execCall_result_const (c : Call) (w : World) :
    (execCall c w).2 = callResult c := by
  cases c <;> rfl

theorem runCalls_snd_replicate (c : Call) (n : Nat) :
    ∀ w : World, (runCalls w (List.replicate n c)).2
      = List.replicate n (callResult c) := by
  induction n with
  | zero => intro w; rfl
  | succ k ih =>
      intro w
      show (execCall c w).2
            :: (runCalls (execCall c w).1 (List.replicate k c)).2
          = callResult c :: List.replicate k (callResult c)
      rw [execCall_result_const, ih]

theorem getElem?_replicate_of_lt {α : Type} (a : α) {n i : Nat}
    (h : i < n) : (List.replicate n a)[i]? = some a := by
  induction n generalizing i with
  | zero => exact absurd h (Nat.not_lt_zero i)
  | succ k ih =>
      rw [List.replicate_succ]
      cases i with
      | zero => rw [List.getElem?_cons_zero]
      | succ j =>
          rw [List.getElem?_cons_succ]
          exact ih (Nat.lt_of_succ_lt_succ h)

theorem format_one_make_directory (p : String) :
    format_one "NOT IMPLEMENTED: make_directory {}" p
      = "NOT IMPLEMENTED: make_directory " ++ p := by
  have h : format_one "NOT IMPLEMENTED: make_directory {}" p
      = ⟨"NOT IMPLEMENTED: make_directory ".data ++ (p.data ++ [])⟩ := rfl
  rw [h, List.append_nil]
  rfl

theorem diagnostics_make_directory (p : String) :
    diagnostics (make_directory p)
      = ["NOT IMPLEMENTED: make_directory " ++ p] := by
  show [format_one "NOT IMPLEMENTED: make_directory {}" p] = _
  rw [format_one_make_directory]

/-- C1: for every path, `make_directory` on the unimplemented backend
returns the not-supported error, never reports success (the block
always returns early, so the success-returning `return {};` after it
is never taken), and emits exactly one diagnostic line mentioning the
path. -/
theorem C1_make_directory_always_not_supported (path : String) :
    resultOf (make_directory path)
        = some (Except.error (Error.from_errno 38))
    ∧ resultOf (make_directory path) ≠ some (Except.ok ())
    ∧ (make_directory_block path).2.isSome = true
    ∧ diagnostics (make_directory path)
        = ["NOT IMPLEMENTED: make_directory " ++ path] := by
  have h : resultOf (make_directory path)
      = some (Except.error (Error.from_errno 38)) := rfl
  refine ⟨h, ?_, rfl, ?_⟩
  · rw [h]
    intro hc
    injection hc with hc2
    exact Except.noConfusion hc2
  · exact diagnostics_make_directory path

/-- C2: `current_directory` on the unimplemented backend always
returns the not-supported error and never returns a path value as a
success payload. -/
theorem C2_current_directory_always_not_supported :
    resultOf current_directory
        = some (Except.error (Error.from_errno 38))
    ∧ ∀ s : String, resultOf current_directory ≠ some (Except.ok s) := by
  have h : resultOf current_directory
      = some (Except.error (Error.from_errno 38)) := rfl
  refine ⟨h, fun s hc => ?_⟩
  rw [h] at hc
  injection hc with hc2
  exact Except.noConfusion hc2

/-- C3: both operations carry the same single numeric error code, and
that constant is the standard "function not implemented" errno value
ENOSYS. -/
theorem C3_same_errno_equals_ENOSYS (path : String) :
    errnoOf (make_directory path) = errnoOf current_directory
    ∧ errnoOf (make_directory path) = some ENOSYS :=
  ⟨rfl, rfl⟩

/-- C4: each call is safe on the unimplemented backend: it is a total
function producing a well-formed result carrying the not-supported
error, it performs no filesystem mutation, and its only side effect is
the single diagnostic line. -/
theorem C4_safe_on_unimplemented_backend (path : String) :
    mutatesFs (make_directory path) = false
    ∧ mutatesFs current_directory = false
    ∧ diagnostics (make_directory path)
        = [format_one "NOT IMPLEMENTED: make_directory {}" path]
    ∧ diagnostics current_directory = ["NOT IMPLEMENTED: current_directory"]
    ∧ resultOf (make_directory path)
        = some (Except.error (Error.from_errno ENOSYS))
    ∧ resultOf current_directory
        = some (Except.error (Error.from_errno ENOSYS)) :=
  ⟨rfl, rfl, rfl, rfl, rfl, rfl⟩

/-- C5: the two concrete scenarios: `make_directory "/tmp/example"`
emits exactly the one line `NOT IMPLEMENTED: make_directory
/tmp/example`, `current_directory` emits exactly the one line
`NOT IMPLEMENTED: current_directory`, and both results carry the
"function not implemented" code. -/
theorem C5_concrete_scenarios :
    diagnostics (make_directory "/tmp/example")
        = ["NOT IMPLEMENTED: make_directory /tmp/example"]
    ∧ diagnostics current_directory = ["NOT IMPLEMENTED: current_directory"]
    ∧ resultOf (make_directory "/tmp/example")
        = some (Except.error (Error.from_errno ENOSYS))
    ∧ resultOf current_directory
        = some (Except.error (Error.from_errno ENOSYS)) :=
  ⟨rfl, rfl, rfl, rfl⟩

/-- C6: in the event sequence of one `make_directory` call, the
diagnostic line naming the operation and the path occurs at an earlier
position than the production of the error result. -/
theorem C6_diagnostic_precedes_error (path : String) :
    ∃ i j : Nat, i < j
      ∧ (make_directory path)[i]?
          = some (Event.warnLine
              (format_one "NOT IMPLEMENTED: make_directory {}" path))
      ∧ (make_directory path)[j]?
          = some (Event.ret (Except.error (Error.from_errno 38))) :=
  ⟨0, 1, Nat.zero_lt_one, rfl, rfl⟩

/-- C7: repeated invocation is stateless: in a run of n identical
calls, every call's result equals the first call's result, and that
result is the ENOSYS error, whatever diagnostic state the world has
accumulated. -/
theorem C7_repeated_calls_stateless (c : Call) (w : World) (n i : Nat)
    (h : i < n) :
    ((runCalls w (List.replicate n c)).2)[i]?
        = ((runCalls w (List.replicate n c)).2)[0]?
    ∧ ((runCalls w (List.replicate n c)).2)[i]?
        = some (CallResult.err ENOSYS) := by
  have h0 : 0 < n := Nat.lt_of_le_of_lt (Nat.zero_le i) h
  have hr : callResult c = CallResult.err ENOSYS := by cases c <;> rfl
  rw [runCalls_snd_replicate, getElem?_replicate_of_lt _ h,
    getElem?_replicate_of_lt _ h0, hr]
  exact ⟨rfl, rfl⟩

theorem C7_repeated_calls_stateless_witness :
    (2 : Nat) < 3
    ∧ (((runCalls ⟨[]⟩ (List.replicate 3 (Call.makeDir "/tmp/example"))).2)[2]?
          = ((runCalls ⟨[]⟩
              (List.replicate 3 (Call.makeDir "/tmp/example"))).2)[0]?
        ∧ ((runCalls ⟨[]⟩
              (List.replicate 3 (Call.makeDir "/tmp/example"))).2)[2]?
          = some (CallResult.err ENOSYS)) :=
  ⟨by decide,
   C7_repeated_calls_stateless (Call.makeDir "/tmp/example") ⟨[]⟩ 3 2
     (by decide)⟩

/-- C8: the empty-string path is not special-cased: the result of
`make_directory ""` equals the result for any other path, and the
diagnostic is the same-form line with the argument substituted, so for
the empty string the line is the bare operation name and a trailing
space. -/
theorem C8_empty_path_not_special (p : String) :
    resultOf (make_directory "") = resultOf (make_directory p)
    ∧ diagnostics (make_directory p)
        = ["NOT IMPLEMENTED: make_directory " ++ p]
    ∧ diagnostics (make_directory "")
        = ["NOT IMPLEMENTED: make_directory " ++ ""] :=
  ⟨rfl, diagnostics_make_directory p, diagnostics_make_directory ""⟩

/-- C9: result exclusivity: any result either operation produces
populates exactly one of the success and error shapes, never both. -/
theorem C9_result_exclusivity (path : String) :
    (∀ r : ErrorOr Unit, resultOf (make_directory path) = some r →
        ¬(isSuccess r = true ∧ isFailure r = true))
    ∧ (∀ r : ErrorOr String, resultOf current_directory = some r →
        ¬(isSuccess r = true ∧ isFailure r = true)) := by
  constructor
  · intro r hr hc
    cases r with
    | ok _ => exact Bool.noConfusion hc.2
    | error _ => exact Bool.noConfusion hc.1
  · intro r hr hc
    cases r with
    | ok _ => exact Bool.noConfusion hc.2
    | error _ => exact Bool.noConfusion hc.1

theorem C9_result_exclusivity_witness :
    ¬(isSuccess (Except.error (Error.from_errno 38) : ErrorOr Unit) = true
      ∧ isFailure (Except.error (Error.from_errno 38) : ErrorOr Unit)
          = true) :=
  (C9_result_exclusivity "/tmp/example").1
    (Except.error (Error.from_errno 38)) rfl

/-- C10: both operations build their error from the literal integer
38: the embedded definitions carry no platform parameter, so the code
is 38 on every target. -/
theorem C10_hardcoded_errno_38 (path : String) :
    errnoOf (make_directory path) = some 38
    ∧ errnoOf current_directory = some 38 :=
  ⟨rfl, rfl⟩

end Jakt
